import Mathlib

/-!
Verification of the Plan 9 `safesocket` backend
(`safesocket/safesocket_plan9.go` of the tailscale repository).

The backend posts one end of a pipe to the Plan 9 `/srv` registry
(`createSrv`), keeps the other end as the listener's working handle,
accepts a peer once the 5-byte handshake token `"Hello"` is read in
full (`plan9SrvListener.Accept`), and hands out `plan9FileConn`
values that forward `Read`/`Write`/`Close` to the same handle.
Deadline setters of `plan9FileConn` return `syscall.EPLAN9`.

The OS layer (Plan 9 pipes, the `/srv` device, Go's `os.File`) is not
part of the repository; it is modelled explicitly below, each modelled
piece documented at its definition.  The Go functions themselves are
translated statement by statement.
-/

namespace safesocket

/-- An open file descriptor / handle, identified by a number. -/
abbrev Handle := Nat

/-- Error values that the modelled operations can surface.

* `eplan9` is `syscall.EPLAN9` ("not supported by plan 9"), the
  backend's `UnsupportedOperation` error;
* `errClosed` is Go's `os.ErrClosed` ("file already closed");
* `badHandshake` is the `errors.New ("Bad handshake")` value built in
  `connect`;
* `pathInUse` is the Plan 9 create failure when a `/srv` name already
  exists;
* `ioErr c` stands for any other OS I/O error (`c` tells them apart). -/
inductive Err where
  | eplan9
  | errClosed
  | badHandshake
  | pathInUse
  | ioErr (code : Nat)
deriving DecidableEq, Repr

/-- The handshake token `"Hello"` as its ASCII bytes
(`[]byte ("Hello")` in the source). -/
def helloBytes : List Nat := [72, 101, 108, 108, 111]

/-- `len ("Hello")` in the source. -/
def helloLen : Nat := helloBytes.length

/-- Go struct `plan9SrvListener { name string; file *os.File }`:
the listener keeps the path it registered and the server end of the
pipe returned by `createSrv`. -/
structure plan9SrvListener where
  name : String
  file : Handle
deriving DecidableEq, Repr

/-- Go struct `plan9FileConn { name string; file *os.File }`. -/
structure plan9FileConn where
  name : String
  file : Handle
deriving DecidableEq, Repr

/-- Go struct `ConnectionStrategy` as used by `connect`: only its
resolved `path` field is read. -/
structure ConnectionStrategy where
  path : String
deriving DecidableEq, Repr

/-- One `sl.file.Read (hello)` interaction in `Accept`'s loop,
as delivered by the OS:

* `ok data` — the read succeeded and wrote `data` into the front of
  the supplied buffer (Go's `Read` fills at most `len (b)` bytes, so
  a valid trace has `data.length ≤ helloLen`); the byte count `n` is
  discarded by the source (`_, err := sl.file.Read(hello)`), so it is
  not recorded here;
* `fail e` — the read returned the error `e`. -/
inductive ReadEvent where
  | ok (data : List Nat)
  | fail (e : Err)
deriving DecidableEq, Repr

/-- Contents of the 5-byte buffer `hello := make([]byte, len("Hello"))`
after a successful read delivered `data`:  Go's `make` zero-fills the
buffer, each loop iteration allocates a fresh one, and a read writes
only the bytes it returns, so the buffer is `data` (clipped to the
buffer size) padded with zero bytes. -/
def readBuf (data : List Nat) : List Nat :=
  data.take helloLen ++ List.replicate (helloLen - data.length) 0

/-- `plan9SrvListener.Accept`, translated from the source loop:

```go
for {
    hello := make([]byte, len("Hello"))
    _, err := sl.file.Read(hello)
    if err != nil { return nil, err }
    if string(hello) == "Hello" { break }
}
return plan9FileConn{name: sl.name, file: sl.file}, nil
```

`reads` is the trace of successive results the OS hands to
`sl.file.Read`.  The result is `none` when the trace is exhausted
with the call still blocked in the loop, `some (.error e)` when a
read error is returned to the caller, and `some (.ok c)` when the
token matched and the connection `c` is returned. -/
def plan9SrvListener.Accept (sl : plan9SrvListener) :
    List ReadEvent → Option (Except Err plan9FileConn)
  | [] => none
  | .fail e :: _ => some (.error e)
  | .ok data :: rest =>
      if readBuf data = helloBytes then
        some (.ok { name := sl.name, file := sl.file })
      else
        plan9SrvListener.Accept sl rest

/-- Environment for one call to `connect`:

* `openResult` — what `os.OpenFile (s.path, os.O_RDWR, 0666)` returns
  (the opened handle, or an OS error such as a not-found error);
* `writeResults` — the results successive `f.Write ([]byte ("Hello"))`
  calls would return, each a byte count or an error.  The source
  performs a single write; giving the whole hypothetical trace lets
  us state that `connect` consumes only its first element, i.e. never
  retries the write. -/
structure ConnectEnv where
  openResult : Except Err Handle
  writeResults : List (Except Err Nat)
deriving Repr

/-- `connect`, translated from the source:

```go
f, err := os.OpenFile(s.path, os.O_RDWR, 0666)
if err != nil { return nil, err }
n, err := f.Write([]byte("Hello"))
if err != nil { return nil, err }
if n != len("Hello") { return nil, errors.New("Bad handshake") }
return plan9FileConn{name: s.path, file: f}, nil
```

`none` means the model's write trace is too short to decide the call
(never the case for a real execution, which always yields a first
write result). -/
def connect (s : ConnectionStrategy) (env : ConnectEnv) :
    Option (Except Err plan9FileConn) :=
  match env.openResult with
  | .error e => some (.error e)
  | .ok f =>
      match env.writeResults with
      | [] => none
      | .error e :: _ => some (.error e)
      | .ok n :: _ =>
          if n ≠ helloLen then some (.error .badHandshake)
          else some (.ok { name := s.path, file := f })

/-- `plan9FileConn.SetDeadline`, translated from the source: it
returns `syscall.EPLAN9` and leaves the connection untouched (the
returned connection value is the state after the call). -/
def plan9FileConn.SetDeadline (fc : plan9FileConn) (_t : Int) :
    plan9FileConn × Except Err Unit :=
  (fc, .error .eplan9)

/-- `plan9FileConn.SetReadDeadline`, translated from the source. -/
def plan9FileConn.SetReadDeadline (fc : plan9FileConn) (_t : Int) :
    plan9FileConn × Except Err Unit :=
  (fc, .error .eplan9)

/-- `plan9FileConn.SetWriteDeadline`, translated from the source. -/
def plan9FileConn.SetWriteDeadline (fc : plan9FileConn) (_t : Int) :
    plan9FileConn × Except Err Unit :=
  (fc, .error .eplan9)

/-- Modelled from the spec: state of the OS pieces the backend touches
— the Plan 9 `/srv` registry, the pipe device, and Go's `os.File`
closed-tracking — none of which is code of this repository.

* `names` — the set of names currently registered in `/srv` (kept as a
  list used with set semantics: operations never introduce duplicates);
* `assoc` — which open handle each registered name is tied to by the
  remove-on-close (`ORCLOSE`) flag.  Per the spec ("registering one
  end under the target name with an OS remove-on-close flag so the
  name disappears automatically when the handle is closed, no manual
  unlink step") and the source comment on `createSrv` ("When the
  server end of the pipe is closed, /srv name associated with it will
  be removed"), the name is tied to the listener's retained working
  handle, the server end of the pipe;
* `openFds` — handles currently open in the process.  Closing a handle
  that is not open is Go's `os.File.Close` on an already-closed file,
  which is documented to return `os.ErrClosed` and do nothing else;
* `nextFd` — allocator for fresh handles. -/
structure SrvOS where
  names : List String
  assoc : List (Handle × String)
  openFds : List Handle
  nextFd : Nat
deriving DecidableEq, Repr

/-- Closing a handle at the OS/`os.File` level (modelled from the
spec, see `SrvOS`): if the handle is open it is closed and any `/srv`
name tied to it by the remove-on-close flag disappears; if it is
already closed the state is unchanged and `os.ErrClosed` is
returned. -/
def closeFd (h : Handle) (os : SrvOS) : SrvOS × Except Err Unit :=
  if h ∈ os.openFds then
    ({ names :=
         match os.assoc.lookup h with
         | some nm => os.names.filter (fun x => x ≠ nm)
         | none => os.names,
       assoc := os.assoc,
       openFds := os.openFds.filter (fun x => x ≠ h),
       nextFd := os.nextFd }, .ok ())
  else
    (os, .error .errClosed)

/-- Failures the model lets the OS inject into `createSrv`'s two
auxiliary syscalls: the `plan9.Pipe` call and the `fmt.Fprintf` that
posts the client pipe end into the `/srv` entry. -/
structure CreateSrvEnv where
  pipeResult : Except Err Unit
  postResult : Except Err Unit
deriving Repr

/-- `createSrv`, translated from the source:

```go
err := plan9.Pipe(pip[:])
if err != nil { return nil, err }
defer plan9.Close(pip[1])
srvfd, err := plan9.Create(path, plan9.O_WRONLY|plan9.O_CLOEXEC|O_RCLOSE, 0600)
if err != nil { return nil, err }
srv := os.NewFile(uintptr(srvfd), path)
defer srv.Close()
_, err = fmt.Fprintf(srv, "%d", pip[1])
if err != nil { return nil, err }
return os.NewFile(uintptr(pip[0]), path), nil
```

The OS side is modelled from the spec (see `SrvOS`): `plan9.Create`
fails when the name is already registered (the spec's `PathInUse`);
on success the name is registered and, via the remove-on-close flag,
tied to the server pipe end `pip[0]`, the handle returned to the
caller.  The deferred closes of `pip[1]` and the `/srv` entry's own
descriptor do not unregister the name (the posted channel keeps the
entry alive); on the error exits no published name survives, per the
spec's guaranteed release on every exit path. -/
def createSrv (path : String) (env : CreateSrvEnv) (os : SrvOS) :
    Except Err (Handle × SrvOS) :=
  match env.pipeResult with
  | .error e => .error e
  | .ok () =>
      if path ∈ os.names then .error .pathInUse
      else
        match env.postResult with
        | .error e => .error e
        | .ok () =>
            let p0 := os.nextFd
            .ok (p0,
              { names := path :: os.names,
                assoc := (p0, path) :: os.assoc,
                openFds := p0 :: os.openFds,
                nextFd := os.nextFd + 2 })

/-- `listen`, translated from the source: create the `/srv` entry and
wrap the returned server pipe end in a `plan9SrvListener`. -/
def listen (path : String) (env : CreateSrvEnv) (os : SrvOS) :
    Except Err (plan9SrvListener × SrvOS) :=
  match createSrv path env os with
  | .error e => .error e
  | .ok (file, os') => .ok ({ name := path, file := file }, os')

/-- `plan9SrvListener.Close`, translated from the source:
`return sl.file.Close()`. -/
def plan9SrvListener.Close (sl : plan9SrvListener) (os : SrvOS) :
    SrvOS × Except Err Unit :=
  closeFd sl.file os

/-- `plan9FileConn.Close`, translated from the source:
`return fc.file.Close()`. -/
def plan9FileConn.Close (fc : plan9FileConn) (os : SrvOS) :
    SrvOS × Except Err Unit :=
  closeFd fc.file os

/-- `plan9FileConn.Read`, translated from the source
(`return fc.file.Read(b)`): Go's `os.File.Read` on a closed file
returns `os.ErrClosed`; on an open file the result (`env`) comes from
the OS channel. -/
def plan9FileConn.Read (fc : plan9FileConn) (os : SrvOS)
    (env : Except Err (List Nat)) : Except Err (List Nat) :=
  if fc.file ∈ os.openFds then env else .error .errClosed

/-- `plan9FileConn.Write`, translated from the source
(`return fc.file.Write(b)`): Go's `os.File.Write` on a closed file
returns `os.ErrClosed`; on an open file the result (`env`, a byte
count or an error) comes from the OS channel. -/
def plan9FileConn.Write (fc : plan9FileConn) (os : SrvOS)
    (env : Except Err Nat) : Except Err Nat :=
  if fc.file ∈ os.openFds then env else .error .errClosed

/-- C2: a short write of the handshake token makes `connect` fail with
the bad-handshake error, with no Conn returned; and the outcome of
`connect` depends only on the first write result, so the write is
never retried. -/
theorem connect_short_write_bad_handshake
    (s : ConnectionStrategy) (f : Handle) (n : Nat)
    (ws : List (Except Err Nat)) (h : n < helloLen) :
    connect s { openResult := .ok f, writeResults := .ok n :: ws }
      = some (.error .badHandshake)
    ∧ ∀ w ws' ws'',
        connect s { openResult := .ok f, writeResults := w :: ws' }
          = connect s { openResult := .ok f, writeResults := w :: ws'' } := by
  constructor
  · simp only [connect]
    rw [if_pos (Nat.ne_of_lt h)]
  · intro w ws' ws''
    cases w <;> rfl

/-- Witness for C2 at a concrete short write (3 of 5 bytes). -/
theorem connect_short_write_bad_handshake_witness :
    connect { path := "/srv/tailscale.sock" }
        { openResult := .ok 4, writeResults := [.ok 3] }
      = some (.error .badHandshake) :=
  (connect_short_write_bad_handshake
    { path := "/srv/tailscale.sock" } 4 3 [] (by decide)).1

/-- C3: all three deadline setters of the rendezvous-pipe backend's
connection return the unsupported-operation error `EPLAN9`, never
success, and return the connection state unchanged. -/
theorem deadline_setters_unsupported (fc : plan9FileConn) (t : Int) :
    fc.SetDeadline t = (fc, .error .eplan9)
    ∧ fc.SetReadDeadline t = (fc, .error .eplan9)
    ∧ fc.SetWriteDeadline t = (fc, .error .eplan9) :=
  ⟨rfl, rfl, rfl⟩

/-- After closing handle `h`, `h` is no longer among the open handles,
whether or not it was open before. -/
theorem closeFd_not_open (h : Handle) (os : SrvOS) :
    h ∉ (closeFd h os).1.openFds := by
  by_cases hm : h ∈ os.openFds
  · simp [closeFd, hm, List.mem_filter]
  · simp [closeFd, hm]

/-- Closing a handle that is not open returns the closed-file error
and changes nothing. -/
theorem closeFd_closed (h : Handle) (os : SrvOS)
    (hno : h ∉ os.openFds) : closeFd h os = (os, .error .errClosed) := by
  simp [closeFd, hno]

/-- When the path is not registered and the auxiliary syscalls
succeed, `listen` succeeds and returns the freshly allocated server
pipe end together with the updated OS state. -/
theorem listen_ok_of_not_mem (path : String) (os : SrvOS)
    (hmem : path ∉ os.names) :
    listen path { pipeResult := .ok (), postResult := .ok () } os
      = .ok ({ name := path, file := os.nextFd },
             { names := path :: os.names,
               assoc := (os.nextFd, path) :: os.assoc,
               openFds := os.nextFd :: os.openFds,
               nextFd := os.nextFd + 2 }) := by
  simp only [listen, createSrv, if_neg hmem]

/-- C4: when `listen` succeeds at a path, a `Close` of the resulting
listener succeeds and releases the OS-visible name — the path is no
longer registered afterwards (through the remove-on-close tie, with no
separate unlink step in `Close`) — and a subsequent `listen` at the
same path succeeds whenever its own auxiliary syscalls do. -/
theorem close_releases_name_listen_succeeds
    (path : String) (env : CreateSrvEnv) (os : SrvOS)
    (sl : plan9SrvListener) (os₁ : SrvOS)
    (h : listen path env os = .ok (sl, os₁)) :
    (sl.Close os₁).2 = .ok ()
    ∧ path ∉ (sl.Close os₁).1.names
    ∧ ∀ env₂ : CreateSrvEnv, env₂.pipeResult = .ok () →
        env₂.postResult = .ok () →
        ∃ r, listen path env₂ (sl.Close os₁).1 = .ok r := by
  obtain ⟨pr, postr⟩ := env
  cases pr with
  | error e => simp [listen, createSrv] at h
  | ok u =>
    by_cases hmem : path ∈ os.names
    · simp [listen, createSrv, hmem] at h
    · cases postr with
      | error e => simp [listen, createSrv, hmem] at h
      | ok u' =>
        simp only [listen, createSrv, if_neg hmem, Except.ok.injEq,
          Prod.mk.injEq] at h
        obtain ⟨hsl, hos⟩ := h
        subst hsl hos
        have hnm : path ∉ (plan9SrvListener.Close
            { name := path, file := os.nextFd }
            { names := path :: os.names,
              assoc := (os.nextFd, path) :: os.assoc,
              openFds := os.nextFd :: os.openFds,
              nextFd := os.nextFd + 2 }).1.names := by
          simp [plan9SrvListener.Close, closeFd, List.lookup,
            List.mem_filter]
        refine ⟨?_, hnm, ?_⟩
        · simp [plan9SrvListener.Close, closeFd]
        · intro env₂ hp₂ hq₂
          obtain ⟨pr₂, postr₂⟩ := env₂
          simp only at hp₂ hq₂
          subst hp₂ hq₂
          exact ⟨_, listen_ok_of_not_mem path _ hnm⟩

/-- Witness for C4: a concrete successful `listen` on an empty OS,
closed and listened on again. -/
theorem close_releases_name_listen_succeeds_witness :
    ∃ r, listen "tailscale.sock" { pipeResult := .ok (), postResult := .ok () }
        ((plan9SrvListener.Close { name := "tailscale.sock", file := 0 }
          { names := ["tailscale.sock"],
            assoc := [(0, "tailscale.sock")],
            openFds := [0], nextFd := 2 }).1) = .ok r :=
  (close_releases_name_listen_succeeds "tailscale.sock"
    { pipeResult := .ok (), postResult := .ok () }
    { names := [], assoc := [], openFds := [], nextFd := 0 }
    { name := "tailscale.sock", file := 0 }
    { names := ["tailscale.sock"], assoc := [(0, "tailscale.sock")],
      openFds := [0], nextFd := 2 }
    rfl).2.2 { pipeResult := .ok (), postResult := .ok () } rfl rfl

/-- C6: after a connection's `Close` has run, `Read` and `Write` on
that connection both fail with the closed-file error, whatever the
underlying channel would have delivered; no post-close I/O succeeds. -/
theorem post_close_io_fails_closed
    (fc : plan9FileConn) (os : SrvOS)
    (envR : Except Err (List Nat)) (envW : Except Err Nat) :
    fc.Read (fc.Close os).1 envR = .error .errClosed
    ∧ fc.Write (fc.Close os).1 envW = .error .errClosed := by
  have hno : fc.file ∉ (plan9FileConn.Close fc os).1.openFds :=
    closeFd_not_open fc.file os
  exact ⟨by simp [plan9FileConn.Read, hno], by simp [plan9FileConn.Write, hno]⟩

/-- C8 counterexample: a concrete run (fresh OS, one `listen`) in
which the first `Close` of the listener returns success while the
second returns the closed-file error — the second call does not behave
the same as the first. -/
theorem listener_close_second_call_counterexample :
    listen "tailscale.sock" { pipeResult := .ok (), postResult := .ok () }
        { names := [], assoc := [], openFds := [], nextFd := 0 }
      = .ok ({ name := "tailscale.sock", file := 0 },
             { names := ["tailscale.sock"],
               assoc := [(0, "tailscale.sock")],
               openFds := [0], nextFd := 2 })
    ∧ (plan9SrvListener.Close { name := "tailscale.sock", file := 0 }
        { names := ["tailscale.sock"], assoc := [(0, "tailscale.sock")],
          openFds := [0], nextFd := 2 }).2 = .ok ()
    ∧ (plan9SrvListener.Close { name := "tailscale.sock", file := 0 }
        (plan9SrvListener.Close { name := "tailscale.sock", file := 0 }
          { names := ["tailscale.sock"], assoc := [(0, "tailscale.sock")],
            openFds := [0], nextFd := 2 }).1).2 = .error .errClosed
    ∧ (Except.error Err.errClosed : Except Err Unit) ≠ .ok () :=
  ⟨rfl, rfl, rfl, fun h => nomatch h⟩

/-- C8 amended: a second `Close` of a listener after a first `Close`
changes no further state — it returns the OS state exactly as the
first left it — but, unlike the first call on an open listener, it
reports the closed-file error instead of success. -/
theorem listener_close_second_call_no_state_change
    (sl : plan9SrvListener) (os : SrvOS) :
    plan9SrvListener.Close sl (plan9SrvListener.Close sl os).1
      = ((plan9SrvListener.Close sl os).1, .error .errClosed) :=
  closeFd_closed sl.file (closeFd sl.file os).1
    (closeFd_not_open sl.file os)

/-- A read that delivers fewer than 5 bytes leaves at least one of the
buffer's zero padding bytes in place, and `"Hello"` contains no zero
byte, so the buffer cannot compare equal to the token. -/
theorem readBuf_ne_of_short (d : List Nat) (hlt : d.length < helloLen) :
    readBuf d ≠ helloBytes := by
  intro he
  have h0 : (0 : Nat) ∈ readBuf d := by
    unfold readBuf
    exact List.mem_append_right _
      (List.mem_replicate.2 ⟨Nat.sub_ne_zero_of_lt hlt, rfl⟩)
  rw [he] at h0
  exact absurd h0 (by decide)

/-- For a valid read (at most the buffer's 5 bytes), the buffer equals
the token exactly when the read delivered the token's 5 bytes. -/
theorem readBuf_eq_hello (d : List Nat) (hle : d.length ≤ helloLen)
    (he : readBuf d = helloBytes) : d = helloBytes := by
  rcases Nat.lt_or_ge d.length helloLen with hlt | hge
  · exact absurd he (readBuf_ne_of_short d hlt)
  · have hlen : d.length = helloLen := Nat.le_antisymm hle hge
    rw [readBuf, hlen, Nat.sub_self, List.replicate_zero,
      List.append_nil, List.take_of_length_le hle] at he
    exact he

/-- Decomposition of a successful `Accept` run: the returned
connection is built from the listener's own name and handle, and the
read trace splits into discarded non-matching reads, then the read
whose buffer matched the token. -/
theorem Accept_ok_decomp (sl : plan9SrvListener)
    (reads : List ReadEvent) (c : plan9FileConn)
    (h : sl.Accept reads = some (.ok c)) :
    c = { name := sl.name, file := sl.file }
    ∧ ∃ pre d rest, reads = pre ++ .ok d :: rest
        ∧ readBuf d = helloBytes
        ∧ ∀ e ∈ pre, ∃ d', e = ReadEvent.ok d' ∧ readBuf d' ≠ helloBytes := by
  induction reads with
  | nil => exact absurd h (by simp [plan9SrvListener.Accept])
  | cons ev rest ih =>
    cases ev with
    | fail e => simp [plan9SrvListener.Accept] at h
    | ok d =>
      by_cases hd : readBuf d = helloBytes
      · simp only [plan9SrvListener.Accept, if_pos hd, Option.some.injEq,
          Except.ok.injEq] at h
        exact ⟨h.symm, [], d, rest, rfl, hd, by simp⟩
      · have h' : sl.Accept rest = some (.ok c) := by
          simpa [plan9SrvListener.Accept, hd] using h
        obtain ⟨hc, pre, d', rest', hre, hmatch, hpre⟩ := ih h'
        refine ⟨hc, .ok d :: pre, d', rest', by rw [hre]; rfl, hmatch, ?_⟩
        intro e he
        rcases List.mem_cons.1 he with rfl | hmem
        · exact ⟨d, rfl, hd⟩
        · exact hpre e hmem

/-- C1: whenever `Accept` returns a connection, the read trace
contains a read whose full 5-byte buffer is exactly the token
`"Hello"`, and every read before it was a non-matching read that the
loop discarded without surfacing a connection. -/
theorem accept_returns_only_after_exact_token (sl : plan9SrvListener)
    (reads : List ReadEvent) (c : plan9FileConn)
    (h : sl.Accept reads = some (.ok c)) :
    ∃ pre d rest, reads = pre ++ .ok d :: rest
      ∧ readBuf d = helloBytes
      ∧ ∀ e ∈ pre, ∃ d', e = ReadEvent.ok d' ∧ readBuf d' ≠ helloBytes :=
  (Accept_ok_decomp sl reads c h).2

/-- Witness for C1: a concrete trace with one garbage read before the
exact token. -/
theorem accept_returns_only_after_exact_token_witness :
    ∃ pre d rest,
      ([.ok [1, 2], .ok helloBytes] : List ReadEvent)
        = pre ++ .ok d :: rest
      ∧ readBuf d = helloBytes
      ∧ ∀ e ∈ pre, ∃ d', e = ReadEvent.ok d' ∧ readBuf d' ≠ helloBytes :=
  accept_returns_only_after_exact_token
    { name := "tailscale.sock", file := 0 } [.ok [1, 2], .ok helloBytes]
    { name := "tailscale.sock", file := 0 } rfl

/-- C5: every connection returned by `Accept` is bound to the
listener's own handle (and carries its name): the channel created once
by `listen` is reused, no fresh channel appearing per accepted peer. -/
theorem accept_conn_shares_listener_handle (sl : plan9SrvListener)
    (reads : List ReadEvent) (c : plan9FileConn)
    (h : sl.Accept reads = some (.ok c)) :
    c.file = sl.file ∧ c.name = sl.name := by
  rw [(Accept_ok_decomp sl reads c h).1]
  exact ⟨rfl, rfl⟩

/-- Witness for C5 at a concrete accepted trace. -/
theorem accept_conn_shares_listener_handle_witness :
    ({ name := "tailscale.sock", file := 7 } : plan9FileConn).file
        = ({ name := "tailscale.sock", file := 7 } : plan9SrvListener).file
    ∧ ({ name := "tailscale.sock", file := 7 } : plan9FileConn).name
        = ({ name := "tailscale.sock", file := 7 } : plan9SrvListener).name :=
  accept_conn_shares_listener_handle
    { name := "tailscale.sock", file := 7 } [.ok helloBytes]
    { name := "tailscale.sock", file := 7 } rfl

/-- C7: a read error is propagated by `Accept` at once — the error at
the head of the trace is returned whatever follows, no Conn — while a
non-matching read only makes the loop continue with the rest of the
trace: retries happen over non-matching reads alone, never over read
errors. -/
theorem accept_propagates_read_errors (sl : plan9SrvListener) :
    (∀ (e : Err) (rest : List ReadEvent),
        sl.Accept (.fail e :: rest) = some (.error e))
    ∧ ∀ (d : List Nat) (rest : List ReadEvent),
        readBuf d ≠ helloBytes →
        sl.Accept (.ok d :: rest) = sl.Accept rest := by
  refine ⟨fun e rest => rfl, fun d rest hd => ?_⟩
  simp only [plan9SrvListener.Accept, if_neg hd]

/-- Witness for C7: one garbage read followed by a hard I/O error; the
error comes out of `Accept`. -/
theorem accept_propagates_read_errors_witness :
    plan9SrvListener.Accept { name := "tailscale.sock", file := 0 }
        [.ok [1, 2, 3], .fail (.ioErr 5)]
      = some (.error (.ioErr 5)) := by
  rw [(accept_propagates_read_errors
    { name := "tailscale.sock", file := 0 }).2 [1, 2, 3]
    [.fail (.ioErr 5)] (by decide)]
  exact (accept_propagates_read_errors
    { name := "tailscale.sock", file := 0 }).1 (.ioErr 5) []

/-- C9: `Accept` performs no reassembly across reads — a read
delivering fewer than the 5 token bytes never matches (the zero
padding survives in the compared buffer) and is simply discarded; a
token split over two reads (3 bytes then 2) leaves the call still
blocked; and under the Go read contract (at most 5 bytes per read into
the 5-byte buffer), a returned connection means some single read
delivered all 5 token bytes at once. -/
theorem accept_requires_single_full_read :
    (∀ d : List Nat, d.length < helloLen → readBuf d ≠ helloBytes)
    ∧ (∀ (sl : plan9SrvListener) (d : List Nat) (rest : List ReadEvent),
        d.length < helloLen → sl.Accept (.ok d :: rest) = sl.Accept rest)
    ∧ (∀ sl : plan9SrvListener,
        sl.Accept [.ok [72, 101, 108], .ok [108, 111]] = none)
    ∧ ∀ (sl : plan9SrvListener) (reads : List ReadEvent)
        (c : plan9FileConn),
        (∀ d, ReadEvent.ok d ∈ reads → d.length ≤ helloLen) →
        sl.Accept reads = some (.ok c) →
        ∃ pre rest, reads = pre ++ .ok helloBytes :: rest := by
  refine ⟨readBuf_ne_of_short, ?_, fun sl => rfl, ?_⟩
  · intro sl d rest hlt
    simp only [plan9SrvListener.Accept, if_neg (readBuf_ne_of_short d hlt)]
  · intro sl reads c hvalid h
    obtain ⟨-, pre, d, rest, hre, hmatch, -⟩ := Accept_ok_decomp sl reads c h
    have hdmem : ReadEvent.ok d ∈ reads := by
      rw [hre]
      exact List.mem_append_right _ (List.mem_cons_self _ _)
    have hd : d = helloBytes := readBuf_eq_hello d (hvalid d hdmem) hmatch
    exact ⟨pre, rest, by rw [hre, hd]⟩

/-- Witness for C9: the token split as 3 bytes then 2 bytes is never
accepted (the call stays blocked), while a single 5-byte read of the
token is; each hypothesis discharged at concrete inputs. -/
theorem accept_requires_single_full_read_witness :
    readBuf [72, 101] ≠ helloBytes
    ∧ plan9SrvListener.Accept { name := "tailscale.sock", file := 1 }
        ([.ok [72, 101]] : List ReadEvent)
      = plan9SrvListener.Accept { name := "tailscale.sock", file := 1 } []
    ∧ plan9SrvListener.Accept { name := "tailscale.sock", file := 1 }
        [.ok [72, 101, 108], .ok [108, 111]] = none
    ∧ ∃ pre rest, ([.ok helloBytes] : List ReadEvent)
        = pre ++ .ok helloBytes :: rest :=
  ⟨accept_requires_single_full_read.1 [72, 101] (by decide),
   accept_requires_single_full_read.2.1
     { name := "tailscale.sock", file := 1 } [72, 101] [] (by decide),
   accept_requires_single_full_read.2.2.1
     { name := "tailscale.sock", file := 1 },
   accept_requires_single_full_read.2.2.2
     { name := "tailscale.sock", file := 1 } [.ok helloBytes]
     { name := "tailscale.sock", file := 1 }
     (fun d hd => by
       simp only [List.mem_singleton, ReadEvent.ok.injEq] at hd
       subst hd
       decide)
     rfl⟩

end safesocket
